import Mathlib

/-!
Verification of the Bi-Calendar Invoice Reconciliation Engine
(`src/lib/nepaliCalendar.ts`, `src/lib/invoiceProcessing.ts` and the
validation / normalization modules).

The BS↔AD conversion in `nepaliCalendar.ts` delegates to the external
`nepali-date-converter` package, whose source is not part of this
repository; its table-driven conversion is therefore modelled from the
spec (an explicit per-year per-month day-count table covering BS 2081–2083,
returning null for out-of-range years or invalid day-for-month combinations),
anchored so that the spec's fixed reference BS 2082/09/07 = AD 2025-12-22
holds.
All other definitions are direct translations of the TypeScript source:
JS `number` is embedded as `ℚ`, `string | null` as `Option String`, and
JS falsiness of strings/options is made explicit.
-/

namespace Js

/-- Whitespace characters recognised by the JS `\s` class and `trim`
(restricted to the BMP characters relevant here). -/
def whitespace (c : Char) : Bool :=
  c == ' ' || c == '\t' || c == '\n' || c == '\r' || c.toNat == 11 || c.toNat == 12 ||
    c.toNat == 160

/-- JS `String.prototype.trim`. -/
def trim (s : String) : String :=
  String.mk (((s.toList.dropWhile whitespace).reverse.dropWhile whitespace).reverse)

/-- Character-by-character string rewriting (JS global single-char `replace`). -/
def mapChars (f : Char → Char) (s : String) : String := String.mk (s.toList.map f)

/-- JS `String.prototype.split` with a single-character separator. -/
def splitChar (sep : Char) : List Char → List (List Char)
  | [] => [[]]
  | c :: rest =>
    if c = sep then [] :: splitChar sep rest
    else
      match splitChar sep rest with
      | [] => [[c]]
      | h :: t => (c :: h) :: t

/-- JS `s.split(sep)` for a one-character separator string. -/
def split (s : String) (sep : Char) : List String := (splitChar sep s.toList).map String.mk

end Js

namespace NepaliCalendar

/-- BS date object, month is 1-indexed (1 = Baisakh). From `nepaliCalendar.ts`. -/
structure BSDate where
  year : Nat
  month : Nat
  day : Nat
deriving DecidableEq, Repr

/-- AD date object, month is 1-indexed (1 = January). From `nepaliCalendar.ts`. -/
structure ADDate where
  year : Nat
  month : Nat
  day : Nat
deriving DecidableEq, Repr

/-- Result of a complete conversion in both calendars. From `nepaliCalendar.ts`. -/
structure ConvertedDate where
  bs : BSDate
  ad : ADDate
  bsFormatted : String
  adFormatted : String
deriving DecidableEq, Repr

/-- Modelled from the spec: the `nepali-date-converter` package's per-year,
per-month day-count table for Bikram Sambat ("an explicit per-year, per-month
day-count table — Bikram Sambat month lengths are not arithmetically derivable
and must be sourced as static data").  The supported table range of this model
is BS 2081–2083; the year lengths align Nepali New Year with the actual
Gregorian dates 2024-04-13, 2025-04-14, 2026-04-14 and 2027-04-14, and place
BS 2082/09/07 at AD 2025-12-22, the spec's fixed reference. -/
def bsMonths (y : Nat) : List Nat :=
  if y = 2081 then [31, 31, 32, 32, 31, 30, 30, 30, 29, 30, 30, 30]
  else if y = 2082 then [30, 32, 31, 32, 31, 30, 30, 30, 29, 30, 30, 30]
  else if y = 2083 then [31, 31, 32, 31, 31, 30, 30, 30, 29, 30, 30, 30]
  else []

/-- Number of days in BS month `m` (1-indexed) of year `y`; 0 outside the table. -/
def bsMonthLen (y m : Nat) : Nat := (bsMonths y).getD (m - 1) 0

/-- Total days of BS year `y` (0 outside the table). -/
def bsYearLen (y : Nat) : Nat := (bsMonths y).foldl (· + ·) 0

/-- Total days of the BS years `2081, …, 2081 + n - 1`. -/
def bsYearsLen : Nat → Nat
  | 0 => 0
  | n + 1 => bsYearsLen n + bsYearLen (2081 + n)

/-- Total days of BS months `1, …, n` of year `y`. -/
def bsMonthsLen (y : Nat) : Nat → Nat
  | 0 => 0
  | n + 1 => bsMonthsLen y n + bsMonthLen y (n + 1)

/-- Number of days covered by the whole calendar table (366 + 365 + 365). -/
def totalDays : Nat := 1096

theorem totalDays_eq : totalDays = bsYearsLen 3 := by decide

/-- Modelled from the spec: validity of a BS date for the
`nepali-date-converter` constructor — the year must lie in the table range and
the day must exist in the given month of the given year. -/
def bsValid (bs : BSDate) : Prop :=
  2081 ≤ bs.year ∧ bs.year ≤ 2083 ∧ 1 ≤ bs.month ∧ bs.month ≤ 12 ∧
    1 ≤ bs.day ∧ bs.day ≤ bsMonthLen bs.year bs.month

instance (bs : BSDate) : Decidable (bsValid bs) := by
  unfold bsValid; infer_instance

/-- 0-based day offset of a valid BS date from BS 2081/01/01. -/
def bsToOffset (bs : BSDate) : Nat :=
  bsYearsLen (bs.year - 2081) + bsMonthsLen bs.year (bs.month - 1) + (bs.day - 1)

/-- Gregorian leap-year rule. -/
def gregLeap (y : Nat) : Bool := (y % 4 == 0 && y % 100 != 0) || y % 400 == 0

/-- Month lengths of a non-leap Gregorian year. -/
def gregMonthLenList : List Nat := [31, 28, 31, 30, 31, 30, 31, 31, 30, 31, 30, 31]

/-- Days in Gregorian month `m` (1-indexed) of year `y`; 0 for `m` outside 1–12. -/
def gregMonthLen (y m : Nat) : Nat :=
  if m = 2 then (if gregLeap y then 29 else 28)
  else gregMonthLenList.getD (m - 1) 0

/-- Days in Gregorian year `y`. -/
def gregYearLen (y : Nat) : Nat := if gregLeap y then 366 else 365

/-- Total days of the Gregorian years `2020, …, 2020 + n - 1`. -/
def gregYearsLen : Nat → Nat
  | 0 => 0
  | n + 1 => gregYearsLen n + gregYearLen (2020 + n)

/-- Total days of Gregorian months `1, …, n` of year `y`. -/
def gregMonthsLen (y : Nat) : Nat → Nat
  | 0 => 0
  | n + 1 => gregMonthsLen y n + gregMonthLen y (n + 1)

/-- 0-based day number, counted from 2020-01-01, of the JS
`new Date(year, month - 1, day)` built by `adToBs` (`nepaliCalendar.ts:74`).
The JS `Date` constructor never rejects an invalid day-for-month: it rolls the
components over (2025-02-30 becomes 2025-03-02, month 13 becomes January of
the next year, day 0 the last day of the previous month), which this day
arithmetic reproduces.  For years before 2020 the count collapses to a small
number; all such dates lie far before the table window and yield `none`, as
they do in the program. -/
def jsDateAbs (ad : ADDate) : Nat :=
  if ad.month = 0 then
    gregYearsLen (ad.year - 1 - 2020) + gregMonthsLen (ad.year - 1) 11 + ad.day - 1
  else
    gregYearsLen ((ad.month - 1) / 12 + ad.year - 2020) +
      gregMonthsLen ((ad.month - 1) / 12 + ad.year) ((ad.month - 1) % 12) + ad.day - 1

/-- Day number of the AD date (2024-04-13) matching BS 2081/01/01. -/
def anchorAbs : Nat := 1564

theorem anchorAbs_eq : anchorAbs = jsDateAbs ⟨2024, 4, 13⟩ := by decide

/-- Walk forward over Gregorian years starting at `y`, consuming `rem` days. -/
def gregFindYear : Nat → Nat → Nat → Nat × Nat
  | 0, y, rem => (y, rem)
  | fuel + 1, y, rem =>
    if gregYearLen y ≤ rem then gregFindYear fuel (y + 1) (rem - gregYearLen y)
    else (y, rem)

/-- Walk forward over Gregorian months of year `y`, consuming `rem` days. -/
def gregFindMonth : Nat → Nat → Nat → Nat → Nat × Nat
  | 0, _, m, rem => (m, rem)
  | fuel + 1, y, m, rem =>
    if gregMonthLen y m ≤ rem then gregFindMonth fuel y (m + 1) (rem - gregMonthLen y m)
    else (m, rem)

/-- The AD date lying `off` days after the anchor 2024-04-13. -/
def offsetToAd (off : Nat) : ADDate :=
  let yr := gregFindYear 20 2020 (anchorAbs + off)
  let md := gregFindMonth 12 yr.1 1 yr.2
  ⟨yr.1, md.1, md.2 + 1⟩

/-- Walk forward over BS years starting at `y`, consuming `rem` days. -/
def bsFindYear : Nat → Nat → Nat → Nat × Nat
  | 0, y, rem => (y, rem)
  | fuel + 1, y, rem =>
    if bsYearLen y ≤ rem ∧ 0 < bsYearLen y then bsFindYear fuel (y + 1) (rem - bsYearLen y)
    else (y, rem)

/-- Walk forward over BS months of year `y`, consuming `rem` days. -/
def bsFindMonth : Nat → Nat → Nat → Nat → Nat × Nat
  | 0, _, m, rem => (m, rem)
  | fuel + 1, y, m, rem =>
    if bsMonthLen y m ≤ rem ∧ 0 < bsMonthLen y m then
      bsFindMonth fuel y (m + 1) (rem - bsMonthLen y m)
    else (m, rem)

/-- The BS date lying `off` days after BS 2081/01/01. -/
def offsetToBs (off : Nat) : BSDate :=
  let yr := bsFindYear 3 2081 off
  let md := bsFindMonth 12 yr.1 1 yr.2
  ⟨yr.1, md.1, md.2 + 1⟩

/-- Convert Bikram Sambat date to Gregorian (AD); `none` if invalid.
From `nepaliCalendar.ts` (`bsToAd`); the `NepaliDate` conversion it wraps is
modelled from the spec via the day-count table. -/
def bsToAd (bs : BSDate) : Option ADDate :=
  if bsValid bs then some (offsetToAd (bsToOffset bs)) else none

/-- Convert Gregorian (AD) date to Bikram Sambat. From `nepaliCalendar.ts`
(`adToBs`): the components first pass through `new Date(...)`, whose rollover
`jsDateAbs` reproduces; the `NepaliDate` conversion of the resulting timestamp
is modelled from the spec via the day-count table and yields `none` exactly
when the (rolled-over) day falls outside the window the table covers. -/
def adToBs (ad : ADDate) : Option BSDate :=
  if anchorAbs ≤ jsDateAbs ad ∧ jsDateAbs ad + 1 ≤ anchorAbs + totalDays then
    some (offsetToBs (jsDateAbs ad - anchorAbs))
  else none

end NepaliCalendar

namespace NepaliCalendar

/-- Boolean round-trip check for one BS date: if `bsToAd` succeeds, `adToBs`
maps the result back to the original date. -/
def rtBS (bs : BSDate) : Bool :=
  match bsToAd bs with
  | some ad => decide (adToBs ad = some bs)
  | none => true

/-- Boolean round-trip check for one AD date that is a real Gregorian
calendar day (the day exists in its month): if `adToBs` succeeds, `bsToAd`
maps the result back to the original date.  Dates the JS rollover would
normalize away are exempt — on those the round trip genuinely fails. -/
def rtAD (ad : ADDate) : Bool :=
  if ad.day ≤ gregMonthLen ad.year ad.month then
    match adToBs ad with
    | some bs => decide (bsToAd bs = some ad)
    | none => true
  else true

set_option maxHeartbeats 4000000 in
theorem rtBS_all : ∀ dy < 3, ∀ dm < 12, ∀ dd < 32,
    rtBS ⟨2081 + dy, 1 + dm, 1 + dd⟩ = true := by decide

set_option maxHeartbeats 4000000 in
theorem rtAD_all : ∀ dy < 4, ∀ dm < 12, ∀ dd < 31,
    rtAD ⟨2024 + dy, 1 + dm, 1 + dd⟩ = true := by decide

theorem getD_nat_le (l : List Nat) (b : Nat) (h : ∀ x ∈ l, x ≤ b) :
    ∀ n, l.getD n 0 ≤ b := by
  induction l with
  | nil => intro n; simp [List.getD]
  | cons a t ih =>
    intro n
    cases n with
    | zero => simpa using h a (by simp)
    | succ n => simpa [List.getD] using ih (fun x hx => h x (by simp [hx])) n

theorem bsMonthLen_le (y m : Nat) : bsMonthLen y m ≤ 32 := by
  unfold bsMonthLen bsMonths
  split_ifs <;> exact getD_nat_le _ _ (by decide) _

theorem gregMonthLen_le (y m : Nat) : gregMonthLen y m ≤ 31 := by
  unfold gregMonthLen
  split_ifs
  · omega
  · omega
  · exact getD_nat_le _ _ (by decide) _

theorem gregYearsLen_lower (n : Nat) : 365 * n ≤ gregYearsLen n := by
  induction n with
  | zero => simp [gregYearsLen]
  | succ n ih =>
    have h : 365 ≤ gregYearLen (2020 + n) := by unfold gregYearLen; split_ifs <;> omega
    have he : gregYearsLen (n + 1) = gregYearsLen n + gregYearLen (2020 + n) := rfl
    omega

theorem gregMonthsLen_le (y n : Nat) : gregMonthsLen y n ≤ 31 * n := by
  induction n with
  | zero => simp [gregMonthsLen]
  | succ n ih =>
    have h := gregMonthLen_le y (n + 1)
    have he : gregMonthsLen y (n + 1) = gregMonthsLen y n + gregMonthLen y (n + 1) := rfl
    omega

theorem jsDateAbs_canonical (ad : ADDate) (h1 : 1 ≤ ad.month) (h2 : ad.month ≤ 12) :
    jsDateAbs ad =
      gregYearsLen (ad.year - 2020) + gregMonthsLen ad.year (ad.month - 1) + ad.day - 1 := by
  unfold jsDateAbs
  rw [if_neg (by omega), Nat.div_eq_of_lt (by omega), Nat.mod_eq_of_lt (by omega)]
  norm_num

theorem ad_window_year_bounds (ad : ADDate) (h1 : 1 ≤ ad.month) (h2 : ad.month ≤ 12)
    (h3 : 1 ≤ ad.day) (h4 : ad.day ≤ gregMonthLen ad.year ad.month)
    (h5 : anchorAbs ≤ jsDateAbs ad) (h6 : jsDateAbs ad + 1 ≤ anchorAbs + totalDays) :
    2024 ≤ ad.year ∧ ad.year ≤ 2027 := by
  have habs := jsDateAbs_canonical ad h1 h2
  have hml : gregMonthsLen ad.year (ad.month - 1) ≤ 31 * (ad.month - 1) := gregMonthsLen_le _ _
  have hdle : ad.day ≤ 31 := le_trans h4 (gregMonthLen_le _ _)
  have hy : 365 * (ad.year - 2020) ≤ gregYearsLen (ad.year - 2020) := gregYearsLen_lower _
  have hanch : anchorAbs = 1564 := by decide
  have htot : totalDays = 1096 := by decide
  constructor
  · by_contra hc
    push_neg at hc
    have hys : ad.year - 2020 = 0 ∨ ad.year - 2020 = 1 ∨ ad.year - 2020 = 2 ∨
        ad.year - 2020 = 3 := by omega
    have hsmall : gregYearsLen (ad.year - 2020) ≤ 1096 := by
      rcases hys with h' | h' | h' | h' <;> rw [h'] <;> decide
    omega
  · omega

/-- C1 counterexample: `adToBs` builds `new Date(2025, 1, 30)`, which the JS
`Date` constructor rolls over to 2025-03-02 instead of rejecting, so
`adToBs` returns a non-null BS date for the non-existent 2025-02-30 and
`bsToAd` of that result yields 2025-03-02, not the original input — the
claimed AD→BS→AD round trip fails there. -/
theorem bs_ad_round_trip_counterexample :
    adToBs ⟨2025, 2, 30⟩ = some ⟨2081, 11, 18⟩ ∧
    bsToAd ⟨2081, 11, 18⟩ = some ⟨2025, 3, 2⟩ ∧
    bsToAd ⟨2081, 11, 18⟩ ≠ some ⟨2025, 2, 30⟩ := by
  refine ⟨by decide, by decide, by decide⟩

/-- C1 (amended). Round-trip property on the supported calendar-table range:
whenever `bsToAd` returns a non-null AD date, `adToBs` maps it back to the
original BS date; and for every AD date that is a real Gregorian calendar day
(its day exists in its month) on which `adToBs` returns a non-null BS date,
`bsToAd` maps it back to the original AD date.  For a non-existent day such
as 2025-02-30 the JS `Date` rollover makes `adToBs` succeed on the
rolled-over day instead, and the round trip returns that normalized date. -/
theorem bs_ad_round_trip :
    (∀ (bs : BSDate) (ad : ADDate), bsToAd bs = some ad → adToBs ad = some bs) ∧
    (∀ (ad : ADDate) (bs : BSDate), adToBs ad = some bs → 1 ≤ ad.month → ad.month ≤ 12 →
      1 ≤ ad.day → ad.day ≤ gregMonthLen ad.year ad.month → bsToAd bs = some ad) := by
  constructor
  · intro bs ad h
    have hv : bsValid bs := by
      by_contra hc
      rw [bsToAd, if_neg hc] at h
      exact Option.noConfusion h
    obtain ⟨h1, h2, h3, h4, h5, h6⟩ := hv
    have hd : bs.day ≤ 32 := le_trans h6 (bsMonthLen_le _ _)
    have key := rtBS_all (bs.year - 2081) (by omega) (bs.month - 1) (by omega)
      (bs.day - 1) (by omega)
    have hbs : (⟨2081 + (bs.year - 2081), 1 + (bs.month - 1), 1 + (bs.day - 1)⟩ : BSDate) = bs := by
      obtain ⟨y, m, d⟩ := bs
      simp only [BSDate.mk.injEq]
      simp only at h1 h2 h3 h4 h5 h6
      refine ⟨by omega, by omega, by omega⟩
    rw [hbs] at key
    unfold rtBS at key
    rw [h] at key
    simpa using key
  · intro ad bs h h1 h2 h3 h4
    have hw : anchorAbs ≤ jsDateAbs ad ∧ jsDateAbs ad + 1 ≤ anchorAbs + totalDays := by
      by_contra hc
      rw [adToBs, if_neg hc] at h
      exact Option.noConfusion h
    have hyb := ad_window_year_bounds ad h1 h2 h3 h4 hw.1 hw.2
    have hd : ad.day ≤ 31 := le_trans h4 (gregMonthLen_le _ _)
    have key := rtAD_all (ad.year - 2024) (by omega) (ad.month - 1) (by omega)
      (ad.day - 1) (by omega)
    have had : (⟨2024 + (ad.year - 2024), 1 + (ad.month - 1), 1 + (ad.day - 1)⟩ : ADDate) = ad := by
      obtain ⟨y, m, d⟩ := ad
      simp only [ADDate.mk.injEq]
      simp only at h1 h2 h3 h4 hyb
      refine ⟨by omega, by omega, by omega⟩
    rw [had] at key
    unfold rtAD at key
    rw [if_pos h4, h] at key
    simpa using key

/-- Witness for C1 at the spec's fixed reference date. -/
theorem bs_ad_round_trip_witness :
    adToBs ⟨2025, 12, 22⟩ = some ⟨2082, 9, 7⟩ ∧ bsToAd ⟨2082, 9, 7⟩ = some ⟨2025, 12, 22⟩ :=
  ⟨bs_ad_round_trip.1 ⟨2082, 9, 7⟩ ⟨2025, 12, 22⟩ (by decide),
   bs_ad_round_trip.2 ⟨2025, 12, 22⟩ ⟨2082, 9, 7⟩ (by decide) (by decide) (by decide)
     (by decide) (by decide)⟩

/-- C7 counterexample: `adToBs` does not return null on an invalid
day-for-month input — `new Date(2025, 1, 29)` rolls over to 2025-03-01 before
the conversion runs, so `adToBs` returns that day's BS date. -/
theorem conversion_null_counterexample :
    adToBs ⟨2025, 2, 29⟩ = some ⟨2081, 11, 17⟩ ∧ adToBs ⟨2025, 2, 29⟩ ≠ none := by
  refine ⟨by decide, by decide⟩

/-- C7 (amended). `bsToAd` and `adToBs` are total functions that never throw.
`bsToAd` returns `none` exactly when the BS year is outside the supported
calendar-table range or the day is invalid for the given month of the given
year.  `adToBs`, however, first passes its components through the JS `Date`
rollover and returns `none` exactly when the rolled-over day falls outside
the window covered by the table: an AD input whose day does not exist in its
month is rolled over — 2025-02-30 converts like 2025-03-02 — rather than
rejected. -/
theorem conversion_null_condition :
    (∀ bs : BSDate, bsToAd bs = none ↔
      ¬ (2081 ≤ bs.year ∧ bs.year ≤ 2083 ∧ 1 ≤ bs.month ∧ bs.month ≤ 12 ∧
          1 ≤ bs.day ∧ bs.day ≤ bsMonthLen bs.year bs.month)) ∧
    (∀ ad : ADDate, adToBs ad = none ↔
      ¬ (anchorAbs ≤ jsDateAbs ad ∧ jsDateAbs ad + 1 ≤ anchorAbs + totalDays)) ∧
    adToBs ⟨2025, 2, 30⟩ = adToBs ⟨2025, 3, 2⟩ := by
  refine ⟨fun bs => ?_, fun ad => ?_, by decide⟩
  · unfold bsToAd
    split <;> simp_all [bsValid]
  · unfold adToBs
    split <;> simp_all

end NepaliCalendar

namespace NepaliCalendar

/-- JS `parseInt(s, 10)` restricted to the shapes produced by date-string
splitting: skip leading whitespace, then read a decimal digit prefix; `none`
models `NaN` (no digits, including a leading sign — negative components never
survive the month/day bounds checks of the callers). -/
def jsParseInt (s : String) : Option Nat :=
  let cs := s.toList.dropWhile Js.whitespace
  let ds := cs.takeWhile (fun c => c.isDigit)
  if ds.isEmpty then none
  else some (ds.foldl (fun acc c => acc * 10 + (c.toNat - 48)) 0)

/-- Parse BS date string (YYYY/MM/DD or YYYY-MM-DD). From `nepaliCalendar.ts`
(`parseBSDate`). -/
def parseBSDate (str : String) : Option BSDate :=
  if str = "" then none
  else
    let cleaned := Js.mapChars (fun c => if c = '.' ∨ c = '-' then '/' else c) (Js.trim str)
    let parts := Js.split cleaned '/' 
    if parts.length ≠ 3 then none
    else
      match jsParseInt (parts.getD 0 ""), jsParseInt (parts.getD 1 ""), jsParseInt (parts.getD 2 "") with
      | some year, some month, some day =>
        if month < 1 ∨ month > 12 ∨ day < 1 ∨ day > 32 then none
        else some ⟨year, month, day⟩
      | _, _, _ => none

/-- Parse AD date string (YYYY-MM-DD or YYYY/MM/DD). From `nepaliCalendar.ts`
(`parseADDate`). -/
def parseADDate (str : String) : Option ADDate :=
  if str = "" then none
  else
    let cleaned := Js.mapChars (fun c => if c = '/' then '-' else c) (Js.trim str)
    let parts := Js.split cleaned '-' 
    if parts.length ≠ 3 then none
    else
      match jsParseInt (parts.getD 0 ""), jsParseInt (parts.getD 1 ""), jsParseInt (parts.getD 2 "") with
      | some year, some month, some day =>
        if month < 1 ∨ month > 12 ∨ day < 1 ∨ day > 31 then none
        else some ⟨year, month, day⟩
      | _, _, _ => none

/-- JS `String.prototype.padStart`. -/
def padStart (s : String) (w : Nat) (c : Char) : String :=
  String.mk (List.replicate (w - s.length) c) ++ s

/-- Format BS date as string (YYYY/MM/DD). From `nepaliCalendar.ts`
(`formatBSDate`). -/
def formatBSDate (bs : BSDate) : String :=
  toString bs.year ++ "/" ++ padStart (toString bs.month) 2 '0' ++ "/" ++
    padStart (toString bs.day) 2 '0'

/-- Format AD date as ISO string (YYYY-MM-DD). From `nepaliCalendar.ts`
(`formatADDate`). -/
def formatADDate (ad : ADDate) : String :=
  toString ad.year ++ "-" ++ padStart (toString ad.month) 2 '0' ++ "-" ++
    padStart (toString ad.day) 2 '0'

/-- Convert BS date string to full date object with both calendars. From
`nepaliCalendar.ts` (`convertFromBS`). -/
def convertFromBS (bsString : String) : Option ConvertedDate :=
  match parseBSDate bsString with
  | none => none
  | some bs =>
    match bsToAd bs with
    | none => none
    | some ad => some ⟨bs, ad, formatBSDate bs, formatADDate ad⟩

/-- Convert AD date string to full date object with both calendars. From
`nepaliCalendar.ts` (`convertFromAD`). -/
def convertFromAD (adString : String) : Option ConvertedDate :=
  match parseADDate adString with
  | none => none
  | some ad =>
    match adToBs ad with
    | none => none
    | some bs => some ⟨bs, ad, formatBSDate bs, formatADDate ad⟩

/-- The two calendar systems. -/
inductive Calendar where
  | BS : Calendar
  | AD : Calendar
deriving DecidableEq, Repr

/-- Detect if a date string is likely BS or AD. From `nepaliCalendar.ts`
(`detectCalendar`); the `NepaliDate` validity probe in the ambiguous range is
modelled from the spec via `bsValid`. -/
def detectCalendar (dateString : String) : Option Calendar :=
  if dateString = "" then none
  else
    let cleaned := Js.mapChars (fun c => if c = '.' ∨ c = '-' ∨ c = '/' then '/' else c)
      (Js.trim dateString)
    let parts := Js.split cleaned '/' 
    if parts.length ≠ 3 then none
    else
      match jsParseInt (parts.getD 0 "") with
      | none => none
      | some year =>
        if year > 2050 then some Calendar.BS
        else if year < 2000 then some Calendar.AD
        else
          match jsParseInt (parts.getD 1 ""), jsParseInt (parts.getD 2 "") with
          | some month, some day =>
            if bsValid ⟨year, month, day⟩ then some Calendar.BS else some Calendar.AD
          | _, _ => some Calendar.AD

/-- Get Nepali fiscal year from BS date (FY runs from Shrawan, month 4, to
Ashadh, month 3). From `nepaliCalendar.ts` (`getFiscalYear`). -/
def getFiscalYear (bs : BSDate) : String :=
  if bs.month ≥ 4 then
    toString bs.year ++ "/" ++ padStart (toString ((bs.year + 1) % 100)) 2 '0'
  else
    toString (bs.year - 1) ++ "/" ++ padStart (toString (bs.year % 100)) 2 '0'

/-- C8. The spec's fixed reference conversion: BS "2082/09/07" converts to AD
"2025-12-22" and AD "2025-12-22" converts to BS "2082/09/07", both via the
complete string-level conversion functions. -/
theorem fixed_reference_conversion :
    convertFromBS "2082/09/07" =
      some ⟨⟨2082, 9, 7⟩, ⟨2025, 12, 22⟩, "2082/09/07", "2025-12-22"⟩ ∧
    convertFromAD "2025-12-22" =
      some ⟨⟨2082, 9, 7⟩, ⟨2025, 12, 22⟩, "2082/09/07", "2025-12-22"⟩ := by
  constructor <;> decide

/-- C9. `getFiscalYear` returns `"{year}/{(year+1) mod 100}"` (second
component zero-padded to two digits) when the BS month is at least 4, and
`"{year-1}/{year mod 100}"` when the month is below 4; in particular
2082/09/07 lies in FY "2082/83" and 2082/02/15 in FY "2081/82". -/
theorem getFiscalYear_spec :
    (∀ bs : BSDate, 4 ≤ bs.month →
      getFiscalYear bs = toString bs.year ++ "/" ++ padStart (toString ((bs.year + 1) % 100)) 2 '0') ∧
    (∀ bs : BSDate, bs.month < 4 →
      getFiscalYear bs = toString (bs.year - 1) ++ "/" ++ padStart (toString (bs.year % 100)) 2 '0') ∧
    getFiscalYear ⟨2082, 9, 7⟩ = "2082/83" ∧ getFiscalYear ⟨2082, 2, 15⟩ = "2081/82" := by
  refine ⟨fun bs h => ?_, fun bs h => ?_, by decide, by decide⟩
  · rw [getFiscalYear, if_pos h]
  · rw [getFiscalYear, if_neg (by omega)]

/-- Witness for C9 at the spec's example dates. -/
theorem getFiscalYear_spec_witness :
    getFiscalYear ⟨2082, 9, 7⟩ =
      toString 2082 ++ "/" ++ padStart (toString ((2082 + 1) % 100)) 2 '0' ∧
    getFiscalYear ⟨2082, 2, 15⟩ =
      toString (2082 - 1) ++ "/" ++ padStart (toString (2082 % 100)) 2 '0' :=
  ⟨getFiscalYear_spec.1 ⟨2082, 9, 7⟩ (by decide),
   getFiscalYear_spec.2.1 ⟨2082, 2, 15⟩ (by decide)⟩

end NepaliCalendar

namespace Js

/-- JS string falsiness for `string | null | undefined` values: null/undefined
or the empty string. -/
abbrev falsyStr (o : Option String) : Prop := o = none ∨ o = some ""

/-- JS `String.prototype.toLowerCase` (ASCII range, which is all the merge-key
pipeline relies on). -/
def toLower (s : String) : String := mapChars Char.toLower s

/-- JS `String.prototype.endsWith`. -/
def endsWith (s suf : String) : Bool := List.isSuffixOf suf.toList s.toList

/-- JS `s.slice(0, -n)`: drop the last `n` characters. -/
def dropRight (s : String) (n : Nat) : String :=
  String.mk (s.toList.take (s.toList.length - n))

end Js

namespace Normalization

/-- Devanagari-digit to ASCII-digit map; other characters unchanged.
From the normalization module (`convertNepaliDigits` mapping table). -/
def nepaliDigitMap (c : Char) : Char :=
  if c = '०' then '0'
  else if c = '१' then '1'
  else if c = '२' then '2'
  else if c = '३' then '3'
  else if c = '४' then '4'
  else if c = '५' then '5'
  else if c = '६' then '6'
  else if c = '७' then '7'
  else if c = '८' then '8'
  else if c = '९' then '9'
  else c

/-- Convert Nepali (Devanagari) digits to Arabic numerals, character by
character; null/empty input yields null. From the normalization module. -/
def convertNepaliDigits (input : Option String) : Option String :=
  if Js.falsyStr input then none
  else some (Js.mapChars nepaliDigitMap (input.getD ""))

/-- Control characters stripped by `normalizeString` (the regex
`[\x00-\x1F\x7F]`). -/
def isControlChar (c : Char) : Bool := decide (c.toNat ≤ 31) || c.toNat == 127

/-- Replace each maximal whitespace run by a single space (the regex
`replace(/\s+/g, ' ')`). -/
def collapseWsAux : Bool → List Char → List Char
  | _, [] => []
  | inRun, c :: rest =>
    if Js.whitespace c then
      (if inRun then [] else [' ']) ++ collapseWsAux true rest
    else c :: collapseWsAux false rest

/-- Normalize string: trim, strip control characters, collapse whitespace
runs; null/empty yields null. From the normalization module
(`normalizeString`). -/
def normalizeString (input : Option String) : Option String :=
  if Js.falsyStr input then none
  else
    let s1 := Js.trim (input.getD "")
    let s2 := s1.toList.filter (fun c => !isControlChar c)
    some (String.mk (collapseWsAux false s2))

/-- Corporate suffixes stripped from vendor names. From the normalization
module (`normalizeVendorName`). -/
def SUFFIXES : List String :=
  ["pvt ltd", "pvt. ltd.", "pvt. ltd", "private limited",
   "p ltd", "p. ltd.", "limited", "ltd", "ltd.",
   "(p) ltd", "(pvt) ltd", "प्रा लि", "प्रा. लि."]

/-- Normalize vendor name: `normalizeString`, lowercase, then strip trailing
corporate suffixes. From the normalization module (`normalizeVendorName`). -/
def normalizeVendorName (input : Option String) : Option String :=
  if Js.falsyStr input then none
  else
    let n := normalizeString input
    if n = none ∨ n = some "" then none
    else
      let normalized := Js.toLower (n.getD "")
      some (SUFFIXES.foldl
        (fun acc suf => if Js.endsWith acc suf then Js.trim (Js.dropRight acc suf.length) else acc)
        normalized)

/-- Normalize invoice number: convert Nepali digits, lowercase, keep only
`[a-z0-9-]`; empty results become null. From the normalization module
(`normalizeInvoiceNumber`). -/
def normalizeInvoiceNumber (input : Option String) : Option String :=
  if Js.falsyStr input then none
  else
    let n := convertNepaliDigits input
    if n = none ∨ n = some "" then none
    else
      let s1 := Js.toLower (n.getD "")
      let s2 := String.mk (s1.toList.filter
        (fun c => decide (('a' ≤ c ∧ c ≤ 'z') ∨ ('0' ≤ c ∧ c ≤ '9') ∨ c = '-')))
      if s2 = "" then none else some s2

/-- Generate canonical merge key `workspace|vendor|invoice_num|bs_date`; null
unless all components normalize to non-empty values. From the normalization
module (`generateMergeKey`). -/
def generateMergeKey (workspaceId : String)
    (vendorName invoiceNumber bsDate : Option String) : Option String :=
  if workspaceId = "" ∨ Js.falsyStr vendorName ∨ Js.falsyStr invoiceNumber ∨ Js.falsyStr bsDate
  then none
  else if normalizeVendorName vendorName = none ∨ normalizeVendorName vendorName = some "" ∨
      normalizeInvoiceNumber invoiceNumber = none ∨ normalizeInvoiceNumber invoiceNumber = some ""
  then none
  else some (workspaceId ++ "|" ++ (normalizeVendorName vendorName).getD "" ++ "|" ++
    (normalizeInvoiceNumber invoiceNumber).getD "" ++ "|" ++ bsDate.getD "")

end Normalization

namespace InvoiceProcessing

/-- The vendor component of the merge key in `invoiceProcessing.ts`:
`normalizeString(vendorNameEn)?.toLowerCase().trim() || ''`. -/
def vendorNormalized (v : Option String) : String :=
  ((Normalization.normalizeString v).map (fun s => Js.trim (Js.toLower s))).getD ""

/-- The invoice-number component of the merge key in `invoiceProcessing.ts`:
`convertNepaliDigits(invoiceNumberEn)?.replace(/[^a-zA-Z0-9]/g, '').toLowerCase() || ''`. -/
def invoiceNormalized (i : Option String) : String :=
  ((Normalization.convertNepaliDigits i).map (fun s =>
    Js.toLower (String.mk (s.toList.filter
      (fun c => decide (('a' ≤ c ∧ c ≤ 'z') ∨ ('A' ≤ c ∧ c ≤ 'Z') ∨ ('0' ≤ c ∧ c ≤ '9'))))))).getD ""

/-- Generate canonical merge key. From `invoiceProcessing.ts`
(`generateMergeKey`). -/
def generateMergeKey (workspaceId : String)
    (vendorNameEn invoiceNumberEn primaryBsDate : Option String) : Option String :=
  if workspaceId = "" ∨ Js.falsyStr vendorNameEn ∨ Js.falsyStr invoiceNumberEn ∨
      Js.falsyStr primaryBsDate then none
  else if vendorNormalized vendorNameEn = "" ∨ invoiceNormalized invoiceNumberEn = "" then none
  else some (workspaceId ++ "|" ++ vendorNormalized vendorNameEn ++ "|" ++
    invoiceNormalized invoiceNumberEn ++ "|" ++ primaryBsDate.getD "")

end InvoiceProcessing

/-- C2. The merge key is null whenever any of the four inputs is null/empty or
the vendor / invoice number normalizes to the empty string, and a non-null
merge key is exactly the four non-empty components workspace, normalized
vendor, normalized invoice number and BS date joined by `|` in that fixed
order — for both `generateMergeKey` implementations. -/
theorem generateMergeKey_spec :
    (∀ (ws : String) (v i d : Option String),
      (ws = "" ∨ Js.falsyStr v ∨ Js.falsyStr i ∨ Js.falsyStr d ∨
        InvoiceProcessing.vendorNormalized v = "" ∨ InvoiceProcessing.invoiceNormalized i = "") →
      InvoiceProcessing.generateMergeKey ws v i d = none) ∧
    (∀ (ws : String) (v i d : Option String) (k : String),
      InvoiceProcessing.generateMergeKey ws v i d = some k →
      ∃ ds, d = some ds ∧
        k = ws ++ "|" ++ InvoiceProcessing.vendorNormalized v ++ "|" ++
            InvoiceProcessing.invoiceNormalized i ++ "|" ++ ds ∧
        ws ≠ "" ∧ InvoiceProcessing.vendorNormalized v ≠ "" ∧
        InvoiceProcessing.invoiceNormalized i ≠ "" ∧ ds ≠ "") ∧
    (∀ (ws : String) (v i d : Option String),
      (ws = "" ∨ Js.falsyStr v ∨ Js.falsyStr i ∨ Js.falsyStr d ∨
        Js.falsyStr (Normalization.normalizeVendorName v) ∨
        Js.falsyStr (Normalization.normalizeInvoiceNumber i)) →
      Normalization.generateMergeKey ws v i d = none) ∧
    (∀ (ws : String) (v i d : Option String) (k : String),
      Normalization.generateMergeKey ws v i d = some k →
      ∃ vs ivs ds, Normalization.normalizeVendorName v = some vs ∧
        Normalization.normalizeInvoiceNumber i = some ivs ∧ d = some ds ∧
        k = ws ++ "|" ++ vs ++ "|" ++ ivs ++ "|" ++ ds ∧
        ws ≠ "" ∧ vs ≠ "" ∧ ivs ≠ "" ∧ ds ≠ "") := by
  refine ⟨?_, ?_, ?_, ?_⟩
  · intro ws v i d h
    by_cases h1 : (ws = "" ∨ Js.falsyStr v ∨ Js.falsyStr i ∨ Js.falsyStr d)
    · simp [InvoiceProcessing.generateMergeKey, h1]
    · have h2 : InvoiceProcessing.vendorNormalized v = "" ∨
          InvoiceProcessing.invoiceNormalized i = "" := by tauto
      rcases h2 with h2 | h2 <;> simp [InvoiceProcessing.generateMergeKey, h1, h2]
  · intro ws v i d k h
    rw [InvoiceProcessing.generateMergeKey] at h
    split_ifs at h with h1 h2
    have hparts : ws ≠ "" ∧ ¬ Js.falsyStr v ∧ ¬ Js.falsyStr i ∧ ¬ Js.falsyStr d := by tauto
    obtain ⟨hws, hv, hi, hd⟩ := hparts
    cases d with
    | none => exact absurd (Or.inl rfl) hd
    | some ds =>
      have hds : ds ≠ "" := fun hc => hd (Or.inr (by rw [hc]))
      have hk : ws ++ "|" ++ InvoiceProcessing.vendorNormalized v ++ "|" ++
          InvoiceProcessing.invoiceNormalized i ++ "|" ++ ds = k := by
        simpa using h
      have h2' : InvoiceProcessing.vendorNormalized v ≠ "" ∧
          InvoiceProcessing.invoiceNormalized i ≠ "" := by tauto
      exact ⟨ds, rfl, hk.symm, hws, h2'.1, h2'.2, hds⟩
  · intro ws v i d h
    by_cases h1 : (ws = "" ∨ Js.falsyStr v ∨ Js.falsyStr i ∨ Js.falsyStr d)
    · simp [Normalization.generateMergeKey, h1]
    · have h2' : Normalization.normalizeVendorName v = none ∨
          Normalization.normalizeVendorName v = some "" ∨
          Normalization.normalizeInvoiceNumber i = none ∨
          Normalization.normalizeInvoiceNumber i = some "" := by tauto
      rcases h2' with h2' | h2' | h2' | h2' <;> simp [Normalization.generateMergeKey, h1, h2']
  · intro ws v i d k h
    rw [Normalization.generateMergeKey] at h
    split_ifs at h with h1 h2
    have hparts : ws ≠ "" ∧ ¬ Js.falsyStr v ∧ ¬ Js.falsyStr i ∧ ¬ Js.falsyStr d := by tauto
    obtain ⟨hws, hv, hi, hd⟩ := hparts
    cases d with
    | none => exact absurd (Or.inl rfl) hd
    | some ds =>
      have hds : ds ≠ "" := fun hc => hd (Or.inr (by rw [hc]))
      have hvn : Normalization.normalizeVendorName v ≠ none ∧
          Normalization.normalizeVendorName v ≠ some "" ∧
          Normalization.normalizeInvoiceNumber i ≠ none ∧
          Normalization.normalizeInvoiceNumber i ≠ some "" := by tauto
      obtain ⟨hvn1, hvn2, hin1, hin2⟩ := hvn
      cases hvc : Normalization.normalizeVendorName v with
      | none => exact absurd hvc hvn1
      | some vs =>
        cases hic : Normalization.normalizeInvoiceNumber i with
        | none => exact absurd hic hin1
        | some ivs =>
          have hvs : vs ≠ "" := fun hc => hvn2 (by rw [hvc, hc])
          have hivs : ivs ≠ "" := fun hc => hin2 (by rw [hic, hc])
          have hk : ws ++ "|" ++ vs ++ "|" ++ ivs ++ "|" ++ ds = k := by
            rw [hvc, hic] at h
            simpa using h
          exact ⟨vs, ivs, ds, rfl, rfl, rfl, hk.symm, hws, hvs, hivs, hds⟩

/-- Witness for C2: a falsy input gives a null key in both implementations,
and a fully-populated input yields the pipe-joined key shape. -/
theorem generateMergeKey_spec_witness :
    InvoiceProcessing.generateMergeKey "" (some "A") (some "1") (some "2082/09/07") = none ∧
    Normalization.generateMergeKey "" (some "A") (some "1") (some "2082/09/07") = none ∧
    (∃ ds, (some "2082/09/07" : Option String) = some ds ∧
      "w|acme|a1|2082/09/07" = "w" ++ "|" ++ InvoiceProcessing.vendorNormalized (some "Acme") ++
        "|" ++ InvoiceProcessing.invoiceNormalized (some "A1") ++ "|" ++ ds ∧
      "w" ≠ "" ∧ InvoiceProcessing.vendorNormalized (some "Acme") ≠ "" ∧
      InvoiceProcessing.invoiceNormalized (some "A1") ≠ "" ∧ ds ≠ "") :=
  ⟨generateMergeKey_spec.1 "" (some "A") (some "1") (some "2082/09/07") (Or.inl rfl),
   generateMergeKey_spec.2.2.1 "" (some "A") (some "1") (some "2082/09/07") (Or.inl rfl),
   generateMergeKey_spec.2.1 "w" (some "Acme") (some "A1") (some "2082/09/07")
     "w|acme|a1|2082/09/07" (by decide)⟩

/-- C10 counterexample: the two `generateMergeKey` implementations disagree —
the normalization-module version strips the corporate suffix "ltd" from the
vendor and keeps the hyphen of the invoice number, the
`invoiceProcessing.ts` version does neither. -/
theorem mergeKey_impls_differ :
    InvoiceProcessing.generateMergeKey "w" (some "Acme Ltd") (some "A-1") (some "2082/09/07") =
      some "w|acme ltd|a1|2082/09/07" ∧
    Normalization.generateMergeKey "w" (some "Acme Ltd") (some "A-1") (some "2082/09/07") =
      some "w|acme|a-1|2082/09/07" ∧
    InvoiceProcessing.generateMergeKey "w" (some "Acme Ltd") (some "A-1") (some "2082/09/07") ≠
      Normalization.generateMergeKey "w" (some "Acme Ltd") (some "A-1") (some "2082/09/07") :=
  ⟨by decide, by decide, by decide⟩

/-- C10 (amended). The two merge-key implementations agree exactly on inputs
where their vendor normalizations and invoice-number normalizations produce
identical strings (for example suffix-free vendors and hyphen-free invoice
numbers); in general they differ. -/
theorem mergeKey_impls_agree_iff_normalizations_agree :
    ∀ (ws : String) (v i d : Option String),
      Normalization.normalizeVendorName v = some (InvoiceProcessing.vendorNormalized v) →
      Normalization.normalizeInvoiceNumber i = some (InvoiceProcessing.invoiceNormalized i) →
      InvoiceProcessing.generateMergeKey ws v i d = Normalization.generateMergeKey ws v i d := by
  intro ws v i d hv hi
  rw [InvoiceProcessing.generateMergeKey, Normalization.generateMergeKey]
  by_cases h1 : (ws = "" ∨ Js.falsyStr v ∨ Js.falsyStr i ∨ Js.falsyStr d)
  · rw [if_pos h1, if_pos h1]
  · rw [if_neg h1, if_neg h1]
    simp only [hv, hi, Option.getD_some]
    by_cases h2 : InvoiceProcessing.vendorNormalized v = ""
    · simp [h2]
    · by_cases h3 : InvoiceProcessing.invoiceNormalized i = ""
      · simp [h3]
      · simp [h2, h3]

/-- Witness for the amended C10 on a suffix-free vendor and hyphen-free
invoice number. -/
theorem mergeKey_impls_agree_witness :
    InvoiceProcessing.generateMergeKey "w" (some "Acme") (some "Inv9") (some "2082/09/07") =
      Normalization.generateMergeKey "w" (some "Acme") (some "Inv9") (some "2082/09/07") :=
  mergeKey_impls_agree_iff_normalizations_agree "w" (some "Acme") (some "Inv9")
    (some "2082/09/07") (by decide) (by decide)

/-- Fully normalized date with both calendar systems. From `invoiceTypes`
(`NormalizedDate`). -/
structure NormalizedDate where
  raw_text : String
  calendar_detected : NepaliCalendar.Calendar
  bs_date : String
  ad_date : String
  conversion_valid : Bool
deriving DecidableEq, Repr

/-- Source of the primary date. From `invoiceProcessing.ts`
(`determinePrimaryDate`). -/
inductive DateSource where
  | transaction : DateSource
  | bill_issuing : DateSource
deriving DecidableEq, Repr

/-- Raw extraction result from the vision collaborator. From `invoiceTypes`
(`GeminiExtractionResponse`); JS numbers are embedded as `ℚ`. -/
structure GeminiExtractionResponse where
  vendor_name_raw : Option String
  vendor_name_en : Option String
  seller_pan : Option String
  invoice_number_raw : Option String
  invoice_number_en : Option String
  transaction_date_raw : Option String
  transaction_date_calendar : Option NepaliCalendar.Calendar
  bill_issuing_date_raw : Option String
  bill_issuing_date_calendar : Option NepaliCalendar.Calendar
  taxable_amount : Option ℚ
  vat_amount : Option ℚ
  vat_rate : Option ℚ
  grand_total : Option ℚ
  currency : String
deriving DecidableEq, Repr

/-- Complete normalized invoice data after backend processing. From
`invoiceTypes` (`ProcessedInvoiceData`). -/
structure ProcessedInvoiceData where
  vendor_name_raw : Option String
  vendor_name_en : Option String
  seller_pan : Option String
  pan_valid : Bool
  invoice_number_raw : Option String
  invoice_number_en : Option String
  transaction_date : Option NormalizedDate
  bill_issuing_date : Option NormalizedDate
  primary_date : Option NormalizedDate
  primary_date_source : Option DateSource
  taxable_amount : Option ℚ
  vat_amount : Option ℚ
  vat_rate : Option ℚ
  grand_total : Option ℚ
  currency : String
  is_vat_invoice : Bool
  merge_key : Option String
deriving DecidableEq, Repr

/-- Validation flags for invoice review. From `invoiceTypes`
(`InvoiceValidationFlags`). -/
structure InvoiceValidationFlags where
  missing_fields : Bool
  math_mismatch : Bool
  vat_inconsistent : Bool
  date_conversion_failed : Bool
  date_mismatch : Bool
  duplicate_invoice : Bool
  pan_invalid : Bool
  notes : List String
deriving DecidableEq, Repr

/-- Merge-candidate confidence. From `invoiceTypes` (`MergeCandidate`). -/
inductive Confidence where
  | exact : Confidence
  | fuzzy : Confidence
deriving DecidableEq, Repr

/-- A detected duplicate. From `invoiceTypes` (`MergeCandidate`). -/
structure MergeCandidate where
  existing_invoice_id : String
  merge_key : String
  confidence : Confidence
deriving DecidableEq, Repr

/-- Result of the complete processing pipeline. From `invoiceTypes`
(`InvoiceProcessingResult`). -/
structure InvoiceProcessingResult where
  success : Bool
  data : ProcessedInvoiceData
  flags : InvoiceValidationFlags
  merge_candidate : Option MergeCandidate
  can_approve : Bool
deriving DecidableEq, Repr

namespace Validation

/-- Tolerance for math comparisons in NPR. From the validation module. -/
def AMOUNT_TOLERANCE : ℚ := 2

/-- Valid VAT rates in Nepal. From the validation module. -/
def VALID_VAT_RATES : List ℚ := [0, 13]

/-- Result of `checkMathMismatch`. -/
structure MathCheck where
  mismatch : Bool
  note : Option String
deriving DecidableEq, Repr

/-- Validate that taxable + VAT = total within `tolerance`; if the total is
missing no mismatch is reported. From the validation module
(`checkMathMismatch`); the JS `toFixed(2)` in the note is rendered via
`toString`. -/
def checkMathMismatch (taxableAmount vatAmount grandTotal : Option ℚ)
    (tolerance : ℚ) : MathCheck :=
  match grandTotal with
  | none => ⟨false, none⟩
  | some gt =>
    if |taxableAmount.getD 0 + vatAmount.getD 0 - gt| > tolerance then
      ⟨true, some ("Math mismatch: " ++ toString (taxableAmount.getD 0) ++ " + " ++
        toString (vatAmount.getD 0) ++ " = " ++ toString (taxableAmount.getD 0 + vatAmount.getD 0) ++
        ", but total is " ++ toString gt ++ " (diff: " ++
        toString (|taxableAmount.getD 0 + vatAmount.getD 0 - gt|) ++ ")")⟩
    else ⟨false, none⟩

/-- Result of `checkVatInconsistent`. -/
structure VatCheck where
  inconsistent : Bool
  note : Option String
deriving DecidableEq, Repr

/-- Validate that VAT = taxable × rate within `tolerance`, skipping when the
rate is falsy/zero, the taxable amount is falsy/zero, or the VAT amount is
absent. From the validation module (`checkVatInconsistent`). -/
def checkVatInconsistent (taxableAmount vatAmount vatRate : Option ℚ)
    (tolerance : ℚ) : VatCheck :=
  if vatRate = none ∨ vatRate = some 0 then ⟨false, none⟩
  else if taxableAmount = none ∨ taxableAmount = some 0 then ⟨false, none⟩
  else if vatAmount = none then ⟨false, none⟩
  else if |taxableAmount.getD 0 * (vatRate.getD 0 / 100) - vatAmount.getD 0| > tolerance then
    ⟨true, some ("VAT inconsistent: " ++ toString (vatRate.getD 0) ++ "% of " ++
      toString (taxableAmount.getD 0) ++ " = " ++
      toString (taxableAmount.getD 0 * (vatRate.getD 0 / 100)) ++ ", but VAT is " ++
      toString (vatAmount.getD 0) ++ " (diff: " ++
      toString (|taxableAmount.getD 0 * (vatRate.getD 0 / 100) - vatAmount.getD 0|) ++ ")")⟩
  else ⟨false, none⟩

/-- Infer VAT rate from amounts when not explicitly provided. From the
validation module (`inferVatRate`); the JS guard
`taxableAmount && taxableAmount > 0` is `0 < taxableAmount.getD 0` here
(a null taxable amount defaults to 0, which is not positive). -/
def inferVatRate (taxableAmount vatAmount explicitRate : Option ℚ) : ℚ :=
  if explicitRate ≠ none ∧ explicitRate.getD 0 ∈ VALID_VAT_RATES then explicitRate.getD 0
  else if vatAmount = none ∨ vatAmount = some 0 then 0
  else if 0 < taxableAmount.getD 0 then
    (if |vatAmount.getD 0 / taxableAmount.getD 0 * 100 - 13| ≤ 1 then 13 else 13)
  else 13

/-- Determine if an invoice can be auto-approved: no missing fields, no math
mismatch, successful date conversion. From the validation module
(`canAutoApprove`). -/
def canAutoApprove (flags : InvoiceValidationFlags) : Bool :=
  !flags.missing_fields && !flags.math_mismatch && !flags.date_conversion_failed

end Validation

namespace InvoiceProcessing

/-- Validate Nepal PAN: must normalize to exactly 9 digits. From
`invoiceProcessing.ts` (`validatePAN`). -/
def validatePAN (pan : Option String) : Bool :=
  if Js.falsyStr pan then false
  else
    decide ((((Normalization.convertNepaliDigits pan).map
      (fun s => String.mk (s.toList.filter (fun c => c.isDigit)))).getD "").length = 9)

/-- Infer VAT rate from amounts if not explicitly provided. From
`invoiceProcessing.ts` (`inferVATRate`); the JS guard
`taxableAmount && taxableAmount > 0` is `0 < taxableAmount.getD 0` here. -/
def inferVATRate (vatAmount taxableAmount explicitRate : Option ℚ) : ℚ :=
  if explicitRate ≠ none ∧ (explicitRate.getD 0 = 0 ∨ explicitRate.getD 0 = 13) then
    explicitRate.getD 0
  else if vatAmount = none ∨ vatAmount = some 0 then 0
  else if 0 < taxableAmount.getD 0 then
    (if |vatAmount.getD 0 / taxableAmount.getD 0 * 100 - 13| ≤ 1 then 13 else 13)
  else 13

/-- Result of `validateVAT`. -/
structure VatValidation where
  math_mismatch : Bool
  vat_inconsistent : Bool
  notes : List String
deriving DecidableEq, Repr

/-- Validate VAT calculations: math check (taxable + vat vs total, ±2 NPR) and
VAT consistency (taxable × rate vs vat, ±2 NPR, only when rate > 0 and
taxable > 0). Missing amounts — including a missing grand total and a missing
VAT amount — are defaulted to 0 by `|| 0`. From `invoiceProcessing.ts`
(`validateVAT`); the JS `toFixed(2)` in the note is rendered via `toString`. -/
def validateVAT (taxableAmount vatAmount grandTotal : Option ℚ) (vatRate : ℚ) : VatValidation :=
  ⟨decide (|taxableAmount.getD 0 + vatAmount.getD 0 - grandTotal.getD 0| > 2),
   decide (vatRate > 0) && decide (taxableAmount.getD 0 > 0) &&
     decide (|taxableAmount.getD 0 * (vatRate / 100) - vatAmount.getD 0| > 2),
   (if decide (|taxableAmount.getD 0 + vatAmount.getD 0 - grandTotal.getD 0| > 2) then
      ["Math mismatch: " ++ toString (taxableAmount.getD 0) ++ " + " ++
        toString (vatAmount.getD 0) ++ " = " ++
        toString (taxableAmount.getD 0 + vatAmount.getD 0) ++ ", but total is " ++
        toString (grandTotal.getD 0)]
    else []) ++
   (if decide (vatRate > 0) && decide (taxableAmount.getD 0 > 0) &&
       decide (|taxableAmount.getD 0 * (vatRate / 100) - vatAmount.getD 0| > 2) then
      ["VAT inconsistent: " ++ toString vatRate ++ "% of " ++ toString (taxableAmount.getD 0) ++
        " = " ++ toString (taxableAmount.getD 0 * (vatRate / 100)) ++ ", but VAT is " ++
        toString (vatAmount.getD 0)]
    else [])⟩

/-- Normalize a date field from the extraction: convert digits, detect the
calendar when not given, and convert, keeping both calendars. From
`invoiceProcessing.ts` (`normalizeDateField`). -/
def normalizeDateField (rawText : Option String)
    (calendarDetected : Option NepaliCalendar.Calendar) : Option NormalizedDate :=
  if Js.falsyStr rawText then none
  else
    let rt := rawText.getD ""
    let normalized := (Normalization.convertNepaliDigits rawText).getD rt
    match (match calendarDetected with
           | some c => some c
           | none => NepaliCalendar.detectCalendar normalized) with
    | none =>
      match NepaliCalendar.convertFromBS normalized with
      | some bsAttempt =>
        some ⟨rt, NepaliCalendar.Calendar.BS, bsAttempt.bsFormatted, bsAttempt.adFormatted, true⟩
      | none =>
        match NepaliCalendar.convertFromAD normalized with
        | some adAttempt =>
          some ⟨rt, NepaliCalendar.Calendar.AD, adAttempt.bsFormatted, adAttempt.adFormatted, true⟩
        | none => some ⟨rt, NepaliCalendar.Calendar.BS, "", "", false⟩
    | some NepaliCalendar.Calendar.BS =>
      match NepaliCalendar.convertFromBS normalized with
      | none => some ⟨rt, NepaliCalendar.Calendar.BS, normalized, "", false⟩
      | some converted =>
        some ⟨rt, NepaliCalendar.Calendar.BS, converted.bsFormatted, converted.adFormatted, true⟩
    | some NepaliCalendar.Calendar.AD =>
      match NepaliCalendar.convertFromAD normalized with
      | none => some ⟨rt, NepaliCalendar.Calendar.AD, "", normalized, false⟩
      | some converted =>
        some ⟨rt, NepaliCalendar.Calendar.AD, converted.bsFormatted, converted.adFormatted, true⟩

/-- Determine the primary date for ledger sorting and merge key: the
transaction date when validly converted, else the bill-issuing date. From
`invoiceProcessing.ts` (`determinePrimaryDate`). -/
def determinePrimaryDate (transactionDate billIssuingDate : Option NormalizedDate) :
    Option NormalizedDate × Option DateSource :=
  match transactionDate with
  | some td =>
    if td.conversion_valid then (some td, some DateSource.transaction)
    else
      match billIssuingDate with
      | some bd =>
        if bd.conversion_valid then (some bd, some DateSource.bill_issuing) else (none, none)
      | none => (none, none)
  | none =>
    match billIssuingDate with
    | some bd =>
      if bd.conversion_valid then (some bd, some DateSource.bill_issuing) else (none, none)
    | none => (none, none)

/-- Check required fields (vendor, invoice number, primary date, grand total);
returns the flag and the list of missing field names. From
`invoiceProcessing.ts` (`checkRequiredFields`). -/
def checkRequiredFields (data : ProcessedInvoiceData) : Bool × List String :=
  let missing :=
    (if Js.falsyStr data.vendor_name_en then ["vendor_name_en"] else []) ++
    (if Js.falsyStr data.invoice_number_en then ["invoice_number_en"] else []) ++
    (if data.primary_date = none then ["primary_date"] else []) ++
    (if data.grand_total = none then ["grand_total"] else [])
  (decide (0 < missing.length), missing)

/-- The complete processing pipeline: normalize dates, normalize identifiers,
validate PAN and VAT, build the merge key, check required fields, assemble the
flag set and the approval decision. From `invoiceProcessing.ts`
(`processGeminiExtraction`). -/
def processGeminiExtraction (extraction : GeminiExtractionResponse)
    (workspaceId : String) : InvoiceProcessingResult :=
  let transactionDate :=
    normalizeDateField extraction.transaction_date_raw extraction.transaction_date_calendar
  let billIssuingDate :=
    normalizeDateField extraction.bill_issuing_date_raw extraction.bill_issuing_date_calendar
  let pd := determinePrimaryDate transactionDate billIssuingDate
  let tBad : Bool := decide (¬ Js.falsyStr extraction.transaction_date_raw) &&
    (match transactionDate with | none => true | some td => !td.conversion_valid)
  let bBad : Bool := decide (¬ Js.falsyStr extraction.bill_issuing_date_raw) &&
    (match billIssuingDate with | none => true | some bd => !bd.conversion_valid)
  let date_conversion_failed := tBad || bBad
  let vendorNameEn := Normalization.normalizeString extraction.vendor_name_en
  let invoiceNumberEn :=
    Normalization.convertNepaliDigits (Normalization.normalizeString extraction.invoice_number_en)
  let panValid := validatePAN extraction.seller_pan
  let vatRate := inferVATRate extraction.vat_amount extraction.taxable_amount extraction.vat_rate
  let vatValidation :=
    validateVAT extraction.taxable_amount extraction.vat_amount extraction.grand_total vatRate
  let primaryBsDate :=
    match pd.1 with
    | some p => if p.bs_date = "" then none else some p.bs_date
    | none => none
  let mergeKey := generateMergeKey workspaceId vendorNameEn invoiceNumberEn primaryBsDate
  let data : ProcessedInvoiceData := {
    vendor_name_raw := extraction.vendor_name_raw
    vendor_name_en := vendorNameEn
    seller_pan := extraction.seller_pan
    pan_valid := panValid
    invoice_number_raw := extraction.invoice_number_raw
    invoice_number_en := invoiceNumberEn
    transaction_date := transactionDate
    bill_issuing_date := billIssuingDate
    primary_date := pd.1
    primary_date_source := pd.2
    taxable_amount := extraction.taxable_amount
    vat_amount := extraction.vat_amount
    vat_rate := some vatRate
    grand_total := extraction.grand_total
    currency := "NPR"
    is_vat_invoice := decide (0 < vatRate)
    merge_key := mergeKey }
  let rc := checkRequiredFields data
  let notes :=
    (if tBad then ["Transaction date conversion failed"] else []) ++
    (if bBad then ["Bill issuing date conversion failed"] else []) ++
    (if decide (¬ Js.falsyStr extraction.seller_pan) && !panValid then
      ["Invalid PAN format: " ++ extraction.seller_pan.getD ""] else []) ++
    vatValidation.notes ++
    (if rc.1 then ["Missing required fields: " ++ String.intercalate ", " rc.2] else [])
  { success := true
    data := data
    flags := {
      missing_fields := rc.1
      math_mismatch := vatValidation.math_mismatch
      vat_inconsistent := vatValidation.vat_inconsistent
      date_conversion_failed := date_conversion_failed
      date_mismatch := false
      duplicate_invoice := false
      pan_invalid := !panValid && decide (¬ Js.falsyStr extraction.seller_pan)
      notes := notes }
    merge_candidate := none
    can_approve := !rc.1 && !vatValidation.math_mismatch && !date_conversion_failed }

end InvoiceProcessing

/-- C3 counterexample: `validateVAT` defaults an absent grand total to 0
(`grandTotal || 0`), so with taxable 1000 and VAT 130 but no grand total it
reports a math mismatch, contradicting the claim that no math mismatch is
reported when the grand total is absent; the standalone `checkMathMismatch`
does skip that input. -/
theorem validateVAT_math_mismatch_on_absent_total :
    (InvoiceProcessing.validateVAT (some 1000) (some 130) none 13).math_mismatch = true ∧
    (Validation.checkMathMismatch (some 1000) (some 130) none 2).mismatch = false := by
  constructor
  · simp only [InvoiceProcessing.validateVAT, Option.getD_some, Option.getD_none,
      decide_eq_true_eq, gt_iff_lt]
    rw [show (1000 : ℚ) + 130 - 0 = 1130 by norm_num, show |(1130 : ℚ)| = 1130 by norm_num]
    norm_num
  · rfl

/-- C3 (amended). The standalone `checkMathMismatch` reports a mismatch iff
the grand total is present and `|taxable + vat - total| > tolerance` (missing
taxable or VAT treated as 0); in particular an absent grand total never
yields a mismatch.  The pipeline's `validateVAT`, by contrast, defaults an
absent grand total to 0, so its `math_mismatch` flag is set iff
`|taxable + vat - (total or 0)| > 2`. -/
theorem math_mismatch_spec :
    (∀ (t v g : Option ℚ) (tol : ℚ),
      (Validation.checkMathMismatch t v g tol).mismatch = true ↔
        ∃ gt, g = some gt ∧ tol < |t.getD 0 + v.getD 0 - gt|) ∧
    (∀ (t v : Option ℚ) (tol : ℚ),
      (Validation.checkMathMismatch t v none tol).mismatch = false) ∧
    (∀ (t v g : Option ℚ) (r : ℚ),
      (InvoiceProcessing.validateVAT t v g r).math_mismatch = true ↔
        2 < |t.getD 0 + v.getD 0 - g.getD 0|) := by
  refine ⟨?_, ?_, ?_⟩
  · intro t v g tol
    cases g with
    | none => simp [Validation.checkMathMismatch]
    | some gt =>
      rw [Validation.checkMathMismatch]
      by_cases h : |t.getD 0 + v.getD 0 - gt| > tol
      · simp only [if_pos h]
        simp only [gt_iff_lt] at h
        simpa using h
      · simp only [if_neg h]
        simp only [gt_iff_lt, not_lt] at h
        simp only [show (false = true) = False by simp, false_iff]
        rintro ⟨gt', hgt', hlt⟩
        rw [Option.some.injEq] at hgt'
        rw [← hgt'] at hlt
        exact absurd hlt (not_lt.mpr h)
  · intro t v tol
    rfl
  · intro t v g r
    rw [InvoiceProcessing.validateVAT]
    simp [gt_iff_lt]

/-- C6 counterexample: `validateVAT` defaults an absent VAT amount to 0
(`vat || 0`), so with rate 13 and taxable 1000 but no VAT amount it reports a
VAT inconsistency; and the standalone `checkVatInconsistent` runs its check
for a negative rate, where the claimed precondition `rate > 0` fails. -/
theorem vat_inconsistent_counterexample :
    (InvoiceProcessing.validateVAT (some 1000) none (some 1000) 13).vat_inconsistent = true ∧
    (Validation.checkVatInconsistent (some 100) (some 13) (some (-13)) 2).inconsistent = true := by
  constructor
  · simp only [InvoiceProcessing.validateVAT, Option.getD_some, Option.getD_none,
      decide_eq_true_eq, gt_iff_lt, Bool.and_eq_true]
    refine ⟨⟨by norm_num, by norm_num⟩, ?_⟩
    rw [show (1000 : ℚ) * (13 / 100) - 0 = 130 by norm_num, show |(130 : ℚ)| = 130 by norm_num]
    norm_num
  · rw [Validation.checkVatInconsistent, if_neg (by simp), if_neg (by simp),
      if_neg (by simp), if_pos]
    rw [Option.getD_some, Option.getD_some, Option.getD_some]
    rw [show (100 : ℚ) * (-13 / 100) - 13 = -26 by norm_num,
      show |(-26 : ℚ)| = 26 by rw [abs_of_nonpos (by norm_num)]; norm_num]
    norm_num

/-- C6 (amended). The standalone `checkVatInconsistent` reports an
inconsistency iff the rate is present and non-zero, the taxable amount is
present and non-zero, the VAT amount is present, and
`|taxable × rate/100 - vat| > tolerance` (negative rates or taxable amounts
are not excluded).  The pipeline's `validateVAT` instead sets
`vat_inconsistent` iff `rate > 0`, `taxable (or 0) > 0` and
`|taxable × rate/100 - (vat or 0)| > 2`: an absent VAT amount is treated as 0
rather than skipping the check. -/
theorem vat_inconsistent_spec :
    (∀ (t v r : Option ℚ) (tol : ℚ),
      (Validation.checkVatInconsistent t v r tol).inconsistent = true ↔
        (r ≠ none ∧ r ≠ some 0 ∧ t ≠ none ∧ t ≠ some 0 ∧ v ≠ none ∧
          tol < |t.getD 0 * (r.getD 0 / 100) - v.getD 0|)) ∧
    (∀ (t v g : Option ℚ) (r : ℚ),
      (InvoiceProcessing.validateVAT t v g r).vat_inconsistent = true ↔
        (0 < r ∧ 0 < t.getD 0 ∧ 2 < |t.getD 0 * (r / 100) - v.getD 0|)) := by
  constructor
  · intro t v r tol
    rw [Validation.checkVatInconsistent]
    by_cases h1 : (r = none ∨ r = some 0)
    · rw [if_pos h1]
      simp only [show (false = true) = False by simp, false_iff]
      rintro ⟨hr1, hr2, _⟩
      rcases h1 with h1 | h1
      · exact hr1 h1
      · exact hr2 h1
    · rw [if_neg h1]
      by_cases h2 : (t = none ∨ t = some 0)
      · rw [if_pos h2]
        simp only [show (false = true) = False by simp, false_iff]
        rintro ⟨_, _, ht1, ht2, _⟩
        rcases h2 with h2 | h2
        · exact ht1 h2
        · exact ht2 h2
      · rw [if_neg h2]
        by_cases h3 : v = none
        · rw [if_pos h3]
          simp only [show (false = true) = False by simp, false_iff]
          rintro ⟨_, _, _, _, hv, _⟩
          exact hv h3
        · rw [if_neg h3]
          by_cases h4 : |t.getD 0 * (r.getD 0 / 100) - v.getD 0| > tol
          · rw [if_pos h4]
            simp only [show (true = true) = True by simp, true_iff, gt_iff_lt] at h4 ⊢
            refine ⟨?_, ?_, ?_, ?_, h3, h4⟩ <;> tauto
          · rw [if_neg h4]
            simp only [show (false = true) = False by simp, false_iff, gt_iff_lt, not_lt] at h4 ⊢
            rintro ⟨_, _, _, _, _, hlt⟩
            exact absurd hlt (not_lt.mpr h4)
  · intro t v g r
    rw [InvoiceProcessing.validateVAT]
    simp [gt_iff_lt, and_assoc]

/-- C5. `inferVatRate` uses a valid explicit rate (0 or 13) when given;
otherwise it returns 0 when the VAT amount is null or zero; otherwise — the
VAT amount being present and non-zero — it returns 13 (both when the implied
rate `vat/taxable×100` is within ±1 of 13 and in every remaining case); in
particular `inferVatRate(taxable=1000, vat=130, explicit=null) = 13`.  The
`inferVATRate` in `invoiceProcessing.ts` computes the same function. -/
theorem inferVatRate_spec :
    (∀ t v : Option ℚ, Validation.inferVatRate t v (some 0) = 0 ∧
      Validation.inferVatRate t v (some 13) = 13) ∧
    (∀ t v e : Option ℚ, e ≠ some 0 → e ≠ some 13 → (v = none ∨ v = some 0) →
      Validation.inferVatRate t v e = 0) ∧
    (∀ t v e : Option ℚ, e ≠ some 0 → e ≠ some 13 → v ≠ none → v ≠ some 0 →
      Validation.inferVatRate t v e = 13) ∧
    Validation.inferVatRate (some 1000) (some 130) none = 13 ∧
    (∀ t v e : Option ℚ, InvoiceProcessing.inferVATRate v t e = Validation.inferVatRate t v e) := by
  have hcond : ∀ e : Option ℚ, e ≠ some 0 → e ≠ some 13 →
      ¬ (e ≠ none ∧ e.getD 0 ∈ Validation.VALID_VAT_RATES) := by
    rintro e he0 he13 ⟨h1, h2⟩
    cases e with
    | none => exact h1 rfl
    | some r =>
      simp only [Option.getD_some, Validation.VALID_VAT_RATES, List.mem_cons,
        List.not_mem_nil, or_false] at h2
      rcases h2 with h2 | h2
      · exact he0 (by rw [h2])
      · exact he13 (by rw [h2])
  have part2 : ∀ t v e : Option ℚ, e ≠ some 0 → e ≠ some 13 → (v = none ∨ v = some 0) →
      Validation.inferVatRate t v e = 0 := by
    intro t v e he0 he13 hv
    rw [Validation.inferVatRate, if_neg (hcond e he0 he13), if_pos hv]
  have part3 : ∀ t v e : Option ℚ, e ≠ some 0 → e ≠ some 13 → v ≠ none → v ≠ some 0 →
      Validation.inferVatRate t v e = 13 := by
    intro t v e he0 he13 hv1 hv2
    rw [Validation.inferVatRate, if_neg (hcond e he0 he13), if_neg (by tauto)]
    split_ifs <;> rfl
  refine ⟨?_, part2, part3, ?_, ?_⟩
  · intro t v
    constructor <;>
      · rw [Validation.inferVatRate, if_pos (by simp [Validation.VALID_VAT_RATES])]
        simp
  · exact part3 (some 1000) (some 130) none (by simp) (by simp) (by simp)
      (by simp only [ne_eq, Option.some.injEq]; norm_num)
  · intro t v e
    rw [InvoiceProcessing.inferVATRate, Validation.inferVatRate]
    have hiff : (e ≠ none ∧ (e.getD 0 = 0 ∨ e.getD 0 = 13)) ↔
        (e ≠ none ∧ e.getD 0 ∈ Validation.VALID_VAT_RATES) := by
      simp [Validation.VALID_VAT_RATES]
    by_cases h : (e ≠ none ∧ e.getD 0 ∈ Validation.VALID_VAT_RATES)
    · rw [if_pos (hiff.mpr h), if_pos h]
    · rw [if_neg (fun hc => h (hiff.mp hc)), if_neg h]

/-- Witness for C5 at concrete rates and amounts. -/
theorem inferVatRate_spec_witness :
    Validation.inferVatRate (some 1000) none (some 7) = 0 ∧
    Validation.inferVatRate (some 1000) (some 130) (some 7) = 13 :=
  ⟨inferVatRate_spec.2.1 (some 1000) none (some 7)
     (by simp only [ne_eq, Option.some.injEq]; norm_num)
     (by simp only [ne_eq, Option.some.injEq]; norm_num) (Or.inl rfl),
   inferVatRate_spec.2.2.1 (some 1000) (some 130) (some 7)
     (by simp only [ne_eq, Option.some.injEq]; norm_num)
     (by simp only [ne_eq, Option.some.injEq]; norm_num) (by simp)
     (by simp only [ne_eq, Option.some.injEq]; norm_num)⟩

/-- C4. The approval gate grants approval iff none of `missing_fields`,
`math_mismatch` and `date_conversion_failed` is set; the `vat_inconsistent`
and `pan_invalid` flags never affect the decision; and the pipeline's
`can_approve` agrees with the same three flags of its own flag set. -/
theorem approval_gate_spec :
    (∀ flags : InvoiceValidationFlags,
      Validation.canAutoApprove flags =
        (!flags.missing_fields && !flags.math_mismatch && !flags.date_conversion_failed)) ∧
    (∀ (flags : InvoiceValidationFlags) (b c : Bool),
      Validation.canAutoApprove { flags with vat_inconsistent := b, pan_invalid := c } =
        Validation.canAutoApprove flags) ∧
    (∀ (extraction : GeminiExtractionResponse) (workspaceId : String),
      (InvoiceProcessing.processGeminiExtraction extraction workspaceId).can_approve =
        (!(InvoiceProcessing.processGeminiExtraction extraction workspaceId).flags.missing_fields &&
         !(InvoiceProcessing.processGeminiExtraction extraction workspaceId).flags.math_mismatch &&
         !(InvoiceProcessing.processGeminiExtraction extraction
             workspaceId).flags.date_conversion_failed)) :=
  ⟨fun _ => rfl, fun _ _ _ => rfl, fun _ _ => rfl⟩
